import Mathlib

/-!
Verification of the PyEvolveSim world state-transition engine.

This file shallowly embeds the Python sources of the repository:
  src/pyevolvesim/evolution/config.py     (configuration constants)
  src/pyevolvesim/evolution/mutation.py   (gene mutation, clamping)
  src/pyevolvesim/evolution/creature.py   (Genes, Creature)
  src/pyevolvesim/evolution/behaviors.py  (decision policy)
  src/life_game/evolution/food.py         (Food)
  src/life_game/evolution/world.py        (EvolutionWorld, next_step)

Modelling conventions:
  - Python int is embedded as Int (Nat where the source constrains the
    value to be a nonnegative counter used with Nat operations).
  - Python float is embedded as Rat; the float arithmetic performed by the
    engine (sums, products, max / min and comparisons) is modelled exactly.
    The seasonal spawn rate uses math.sin and is embedded over Real.
  - Every call to the random module is replaced by an explicit oracle
    argument.  random.shuffle is modelled by shuffleWith, which reorders a
    list according to a supplied seed: for every seed the result is built
    only from elements of the input list, exactly the guarantee a shuffle
    provides.  random.random and random.uniform draws are supplied as
    rational oracle values, random.choice and random.randint as natural
    numbers reduced modulo the size of the sampled range.  The pre-clamp
    food-spawn candidate cell (derived in the source from an exponential
    radial offset and a uniform angle around a cluster centre, truncated
    with int) is supplied as an arbitrary integer offset from the chosen
    cluster centre; every integer offset is reachable by such draws.
-/

/-! ## Configuration constants (src/pyevolvesim/evolution/config.py) -/

def FOOD_ENERGY : ℚ := 60
def MAX_FOOD : ℕ := 100
def FOOD_SPAWN_PER_TURN : ℚ := 3
def NUM_FOOD_CLUSTERS : ℕ := 6
def CLUSTER_MOVE_INTERVAL : ℕ := 50
def ENABLE_TEMPORAL_VARIATION : Bool := true
def SEASON_CYCLE_LENGTH : ℕ := 100
def SEASON_MIN_SPAWN_RATE : ℚ := mkRat 3 2
def SEASON_MAX_SPAWN_RATE : ℚ := mkRat 7 2
def MIN_REPRODUCTION_AGE : ℤ := 5
def MUTATION_RATE : ℚ := mkRat 3 10
def MUTATION_STRENGTH : ℚ := mkRat 1 5
def LARGE_MUTATION_CHANCE : ℚ := mkRat 2 25
def LARGE_MUTATION_STRENGTH : ℚ := mkRat 1 2

/-! ## Mutation engine (src/pyevolvesim/evolution/mutation.py) -/

/-- Random draws consumed when mutating one gene: r_mut models the
random.random() call gating whether a mutation happens, r_large the
random.random() call selecting a large mutation, u the uniform draw in
the unit interval from which random.uniform(-s, s) is derived as
-s + 2 * s * u, and sign2 the random.choice between a positive and a
negative integer step. -/
structure GeneDraw where
  r_mut : ℚ
  r_large : ℚ
  u : ℚ
  sign2 : Bool

/-- clamp_value from mutation.py: max(min_val, min(max_val, value)). -/
def clamp_value (value min_val max_val : ℚ) : ℚ :=
  max min_val (min max_val value)

/-- mutate_integer_gene from mutation.py.  The source converts through
float for the clamp; for integer bounds the value is exact, so the clamp
is performed on Int directly. -/
def mutate_integer_gene (current_value min_value max_value : ℤ)
    (large_mutation_chance : ℚ) (d : GeneDraw) : ℤ :=
  let change : ℤ :=
    if d.r_large < large_mutation_chance then (if d.sign2 then 2 else -2)
    else (if d.sign2 then 1 else -1)
  max min_value (min max_value (current_value + change))

/-- mutate_continuous_gene from mutation.py: a multiplicative factor
1 + uniform(-strength, strength) followed by a mandatory clamp. -/
def mutate_continuous_gene (current_value min_value max_value
    mutation_strength large_mutation_strength large_mutation_chance : ℚ)
    (d : GeneDraw) : ℚ :=
  let strength :=
    if d.r_large < large_mutation_chance then large_mutation_strength
    else mutation_strength
  let mutation_factor : ℚ := 1 + (-strength + 2 * strength * d.u)
  clamp_value (current_value * mutation_factor) min_value max_value

/-- mutate_gene_value from mutation.py, specialised to a continuous gene
with a finite range (GENE_CONSTRAINTS rows with is_integer = False and a
finite max_value).  If the mutation gate fails the value passes through
unchanged. -/
def mutate_gene_value_q (current_value min_value max_value : ℚ)
    (d : GeneDraw) : ℚ :=
  if MUTATION_RATE ≤ d.r_mut then current_value
  else mutate_continuous_gene current_value min_value max_value
    MUTATION_STRENGTH LARGE_MUTATION_STRENGTH LARGE_MUTATION_CHANCE d

/-- mutate_gene_value for reproduction_threshold, whose GENE_CONSTRAINTS
row has max_value = float(inf): min(inf, v) = v, so only the lower clamp
remains. -/
def mutate_gene_value_no_upper (current_value min_value : ℚ)
    (d : GeneDraw) : ℚ :=
  if MUTATION_RATE ≤ d.r_mut then current_value
  else
    let strength :=
      if d.r_large < LARGE_MUTATION_CHANCE then LARGE_MUTATION_STRENGTH
      else MUTATION_STRENGTH
    let mutation_factor : ℚ := 1 + (-strength + 2 * strength * d.u)
    max min_value (current_value * mutation_factor)

/-- mutate_gene_value from mutation.py specialised to an integer gene. -/
def mutate_gene_value_int (current_value min_value max_value : ℤ)
    (d : GeneDraw) : ℤ :=
  if MUTATION_RATE ≤ d.r_mut then current_value
  else mutate_integer_gene current_value min_value max_value
    LARGE_MUTATION_CHANCE d

/-! ## Genes and Creature (src/pyevolvesim/evolution/creature.py) -/

/-- Genes from creature.py, with the field ranges declared there:
move_cost in [0.5, 2], vision_range in [1, 10], reproduction_threshold
in [10, inf), metabolism in [0.8, 2], speed in [1, 3], max_energy in
[100, 300], food_efficiency in [0.7, 1.3]. -/
structure Genes where
  move_cost : ℚ
  vision_range : ℤ
  reproduction_threshold : ℚ
  metabolism : ℚ
  speed : ℤ
  max_energy : ℚ
  food_efficiency : ℚ
deriving DecidableEq

/-- One GeneDraw per gene field, in the field order of Genes. -/
structure GenesDraws where
  move_cost : GeneDraw
  vision_range : GeneDraw
  reproduction_threshold : GeneDraw
  metabolism : GeneDraw
  speed : GeneDraw
  max_energy : GeneDraw
  food_efficiency : GeneDraw

/-- Genes.mutate from creature.py: every field is passed through
mutate_gene_value with the constraints of GENE_CONSTRAINTS. -/
def Genes.mutate (g : Genes) (d : GenesDraws) : Genes where
  move_cost := mutate_gene_value_q g.move_cost (mkRat 1 2) 2 d.move_cost
  vision_range := mutate_gene_value_int g.vision_range 1 10 d.vision_range
  reproduction_threshold :=
    mutate_gene_value_no_upper g.reproduction_threshold 10
      d.reproduction_threshold
  metabolism := mutate_gene_value_q g.metabolism (mkRat 4 5) 2 d.metabolism
  speed := mutate_gene_value_int g.speed 1 3 d.speed
  max_energy := mutate_gene_value_q g.max_energy 100 300 d.max_energy
  food_efficiency :=
    mutate_gene_value_q g.food_efficiency (mkRat 7 10) (mkRat 13 10) d.food_efficiency

/-- Creature from creature.py. -/
structure Creature where
  x : ℤ
  y : ℤ
  energy : ℚ
  genes : Genes
  age : ℤ
  generation : ℤ
  id : ℤ
deriving DecidableEq

/-- Creature.move_to. -/
def Creature.move_to (c : Creature) (new_x new_y : ℤ) : Creature :=
  { c with x := new_x, y := new_y }

/-- Creature.consume_metabolism: energy := max(0, energy - metabolism). -/
def Creature.consume_metabolism (c : Creature) : Creature :=
  { c with energy := max 0 (c.energy - c.genes.metabolism) }

/-- Creature.eat: energy grows by food_energy * food_efficiency, capped
at max_energy. -/
def Creature.eat (c : Creature) (food_energy : ℚ) : Creature :=
  { c with
    energy := min (c.energy + food_energy * c.genes.food_efficiency) c.genes.max_energy }

/-- Creature.reproduce: the parent keeps half of its energy, the child
receives the other half, mutated genes, age 0, the next generation number
and the supplied id, at the parent position. -/
def Creature.reproduce (c : Creature) (child_id : ℤ) (d : GenesDraws) :
    Creature × Creature :=
  let parent_energy := c.energy * mkRat 1 2
  let child_energy := c.energy * mkRat 1 2
  let child_genes := c.genes.mutate d
  ({ c with energy := parent_energy },
   { x := c.x, y := c.y, energy := child_energy, genes := child_genes,
     age := 0, generation := c.generation + 1, id := child_id })

/-- Creature.age_one_turn. -/
def Creature.age_one_turn (c : Creature) : Creature :=
  { c with age := c.age + 1 }

/-- Creature.is_alive: strictly positive energy. -/
def Creature.is_alive (c : Creature) : Bool :=
  decide (0 < c.energy)

/-- Food from src/life_game/evolution/food.py. -/
structure Food where
  x : ℤ
  y : ℤ
  energy : ℚ
deriving DecidableEq

/-! ## In-range predicate for genes (the declared closed ranges) -/

/-- Every gene lies inside the interval declared on the corresponding
Genes field (reproduction_threshold has no upper bound). -/
def genes_in_range (g : Genes) : Prop :=
  (mkRat 1 2 ≤ g.move_cost ∧ g.move_cost ≤ 2) ∧
  (1 ≤ g.vision_range ∧ g.vision_range ≤ 10) ∧
  (10 ≤ g.reproduction_threshold) ∧
  (mkRat 4 5 ≤ g.metabolism ∧ g.metabolism ≤ 2) ∧
  (1 ≤ g.speed ∧ g.speed ≤ 3) ∧
  (100 ≤ g.max_energy ∧ g.max_energy ≤ 300) ∧
  (mkRat 7 10 ≤ g.food_efficiency ∧ g.food_efficiency ≤ mkRat 13 10)

instance : DecidablePred genes_in_range := by
  unfold genes_in_range
  infer_instance

/-! ## Helper lemmas for clamping -/

theorem clamp_value_mem (value min_val max_val : ℚ)
    (h : min_val ≤ max_val) :
    min_val ≤ clamp_value value min_val max_val ∧
      clamp_value value min_val max_val ≤ max_val := by
  unfold clamp_value
  constructor
  · exact le_max_left _ _
  · exact max_le h (min_le_left _ _)

theorem int_clamp_mem (value min_val max_val : ℤ)
    (h : min_val ≤ max_val) :
    min_val ≤ max min_val (min max_val value) ∧
      max min_val (min max_val value) ≤ max_val := by
  constructor
  · exact le_max_left _ _
  · exact max_le h (min_le_left _ _)

theorem mutate_gene_value_q_mem (v min_val max_val : ℚ) (d : GeneDraw)
    (hv : min_val ≤ v ∧ v ≤ max_val) :
    min_val ≤ mutate_gene_value_q v min_val max_val d ∧
      mutate_gene_value_q v min_val max_val d ≤ max_val := by
  unfold mutate_gene_value_q
  split
  · exact hv
  · exact clamp_value_mem _ _ _ (le_trans hv.1 hv.2)

theorem mutate_gene_value_int_mem (v min_val max_val : ℤ) (d : GeneDraw)
    (hv : min_val ≤ v ∧ v ≤ max_val) :
    min_val ≤ mutate_gene_value_int v min_val max_val d ∧
      mutate_gene_value_int v min_val max_val d ≤ max_val := by
  unfold mutate_gene_value_int mutate_integer_gene
  split
  · exact hv
  · exact int_clamp_mem _ _ _ (le_trans hv.1 hv.2)

theorem mutate_gene_value_no_upper_mem (v min_val : ℚ) (d : GeneDraw)
    (hv : min_val ≤ v) :
    min_val ≤ mutate_gene_value_no_upper v min_val d := by
  unfold mutate_gene_value_no_upper
  split
  · exact hv
  · exact le_max_left _ _

/-! ## Claim C2 -/

/-- C2: for every gene of a trait set whose values lie inside the
declared closed ranges, the trait set produced by one application of
Genes.mutate again lies inside all declared ranges, for arbitrary random
draws, in particular for boundary starting values and large-mutation
draws; consequently every sequence of mutations preserves the ranges. -/
theorem claim_C2_mutation_bounds (g : Genes) (d : GenesDraws)
    (h : genes_in_range g) : genes_in_range (g.mutate d) := by
  obtain ⟨h1, h2, h3, h4, h5, h6, h7⟩ := h
  exact ⟨mutate_gene_value_q_mem _ _ _ _ h1,
    mutate_gene_value_int_mem _ _ _ _ h2,
    mutate_gene_value_no_upper_mem _ _ _ h3,
    mutate_gene_value_q_mem _ _ _ _ h4,
    mutate_gene_value_int_mem _ _ _ _ h5,
    mutate_gene_value_q_mem _ _ _ _ h6,
    mutate_gene_value_q_mem _ _ _ _ h7⟩

/-- Default genes from config.py, used as concrete witness data. -/
def default_genes : Genes where
  move_cost := mkRat 9 10
  vision_range := 3
  reproduction_threshold := 100
  metabolism := mkRat 6 5
  speed := 1
  max_energy := 200
  food_efficiency := 1

/-- A draw that mutates every gene with a large mutation at full positive
strength. -/
def large_draw : GeneDraw where
  r_mut := 0
  r_large := 0
  u := 1
  sign2 := true

def large_draws : GenesDraws where
  move_cost := large_draw
  vision_range := large_draw
  reproduction_threshold := large_draw
  metabolism := large_draw
  speed := large_draw
  max_energy := large_draw
  food_efficiency := large_draw

/-- Witness for C2 at the default genes under an always-mutating
large-mutation draw. -/
theorem claim_C2_witness :
    genes_in_range default_genes ∧
      genes_in_range (default_genes.mutate large_draws) :=
  ⟨by with_unfolding_all decide,
    claim_C2_mutation_bounds default_genes large_draws
      (by with_unfolding_all decide)⟩

/-! ## Claim C5 -/

/-- C5: reproduce splits the parent energy exactly 50/50: the sum of the
energies of the returned parent and child equals the pre-reproduction
energy, each share is half of it, and the child has age 0, the parent
generation plus one, and the supplied id. -/
theorem claim_C5_reproduction_split (c : Creature) (child_id : ℤ)
    (d : GenesDraws) (_h : 0 ≤ c.energy) :
    (c.reproduce child_id d).1.energy + (c.reproduce child_id d).2.energy
        = c.energy ∧
      (c.reproduce child_id d).1.energy = c.energy * mkRat 1 2 ∧
      (c.reproduce child_id d).2.energy = c.energy * mkRat 1 2 ∧
      (c.reproduce child_id d).2.age = 0 ∧
      (c.reproduce child_id d).2.generation = c.generation + 1 ∧
      (c.reproduce child_id d).2.id = child_id := by
  refine ⟨?_, rfl, rfl, rfl, rfl, rfl⟩
  show c.energy * mkRat 1 2 + c.energy * mkRat 1 2 = c.energy
  have hhalf : (mkRat 1 2 : ℚ) + mkRat 1 2 = 1 := by with_unfolding_all rfl
  rw [← mul_add, hhalf, mul_one]

/-- A concrete creature used by witnesses. -/
def witness_creature : Creature where
  x := 2
  y := 3
  energy := 130
  genes := default_genes
  age := 6
  generation := 4
  id := 11

/-- Witness for C5 at a concrete creature with energy 130. -/
theorem claim_C5_witness :
    0 ≤ witness_creature.energy ∧
      ((witness_creature.reproduce 12 large_draws).1.energy +
          (witness_creature.reproduce 12 large_draws).2.energy
            = witness_creature.energy ∧
        (witness_creature.reproduce 12 large_draws).1.energy
            = witness_creature.energy * mkRat 1 2 ∧
        (witness_creature.reproduce 12 large_draws).2.energy
            = witness_creature.energy * mkRat 1 2 ∧
        (witness_creature.reproduce 12 large_draws).2.age = 0 ∧
        (witness_creature.reproduce 12 large_draws).2.generation
            = witness_creature.generation + 1 ∧
        (witness_creature.reproduce 12 large_draws).2.id = 12) :=
  ⟨by with_unfolding_all decide,
    claim_C5_reproduction_split witness_creature 12 large_draws
      (by with_unfolding_all decide)⟩

/-! ## World state (src/life_game/evolution/world.py, data part) -/

/-- EvolutionWorld from world.py. -/
structure EvolutionWorld where
  width : ℤ
  height : ℤ
  creatures : List Creature
  foods : List Food
  generation : ℕ
  next_creature_id : ℤ
  food_clusters : List (ℤ × ℤ)
deriving DecidableEq

/-- get_creature_at: the first creature of the list at the position,
mirroring the linear scan of the source. -/
def EvolutionWorld.get_creature_at (w : EvolutionWorld) (x y : ℤ) :
    Option Creature :=
  w.creatures.find? (fun c => decide (c.x = x ∧ c.y = y))

/-- is_valid_position: 0 <= x < width and 0 <= y < height. -/
def EvolutionWorld.is_valid_position (w : EvolutionWorld) (x y : ℤ) : Bool :=
  decide (0 ≤ x ∧ x < w.width ∧ 0 ≤ y ∧ y < w.height)

/-! ## Shuffle oracle

random.shuffle is modelled by reordering the list under a seed: the seed
selects, step by step, which remaining element comes next.  Whatever the
seed, the output is assembled from elements of the input, which is the
only property of a shuffle the engine relies on for safety claims. -/

/-- Remove and return the element at the given index. -/
def pickIdx : List α → ℕ → Option (α × List α)
  | [], _ => none
  | a :: as, 0 => some (a, as)
  | a :: as, n + 1 => (pickIdx as n).map (fun p => (p.1, a :: p.2))

/-- Reorder a list according to a seed of index choices. -/
def shuffleWith : List ℕ → List α → List α
  | _, [] => []
  | [], as => as
  | s :: ss, a :: as =>
    match pickIdx (a :: as) (s % (a :: as).length) with
    | none => a :: as
    | some (b, rest) => b :: shuffleWith ss rest

theorem pickIdx_mem {xs : List α} {i : ℕ} {y : α} {rest : List α}
    (h : pickIdx xs i = some (y, rest)) :
    y ∈ xs ∧ ∀ a ∈ rest, a ∈ xs := by
  induction xs generalizing i y rest with
  | nil => simp [pickIdx] at h
  | cons a as ih =>
    cases i with
    | zero =>
      simp only [pickIdx, Option.some.injEq, Prod.mk.injEq] at h
      obtain ⟨rfl, rfl⟩ := h
      exact ⟨List.mem_cons_self _ _, fun b hb => List.mem_cons_of_mem _ hb⟩
    | succ n =>
      simp only [pickIdx, Option.map_eq_some'] at h
      obtain ⟨⟨y', rest'⟩, hsome, heq⟩ := h
      obtain ⟨rfl, rfl⟩ := Prod.mk.injEq .. ▸ heq
      obtain ⟨hy, hrest⟩ := ih hsome
      refine ⟨List.mem_cons_of_mem _ hy, ?_⟩
      intro b hb
      rcases List.mem_cons.mp hb with rfl | hb
      · exact List.mem_cons_self _ _
      · exact List.mem_cons_of_mem _ (hrest b hb)

theorem shuffleWith_mem {seed : List ℕ} {xs : List α} :
    ∀ a ∈ shuffleWith seed xs, a ∈ xs := by
  induction seed generalizing xs with
  | nil => cases xs <;> simp [shuffleWith]
  | cons s ss ih =>
    cases xs with
    | nil => simp [shuffleWith]
    | cons x xs =>
      intro a ha
      unfold shuffleWith at ha
      rcases hpick : pickIdx (x :: xs) (s % (x :: xs).length) with _ | ⟨b, rest⟩
      · rw [hpick] at ha
        exact ha
      · rw [hpick] at ha
        obtain ⟨hb, hrest⟩ := pickIdx_mem hpick
        rcases List.mem_cons.mp ha with rfl | ha
        · exact hb
        · exact hrest a (ih a ha)

/-! ## Behavior policy (src/pyevolvesim/evolution/behaviors.py) -/

/-- manhattan_distance from behaviors.py. -/
def manhattan_distance (x1 y1 x2 y2 : ℤ) : ℤ :=
  |x2 - x1| + |y2 - y1|

/-- find_visible_foods: all foods within the vision range. -/
def find_visible_foods (c : Creature) (w : EvolutionWorld) : List Food :=
  w.foods.filter
    (fun f => decide (manhattan_distance c.x c.y f.x f.y ≤ c.genes.vision_range))

/-- get_closest_food: the Python min with a distance key, which keeps the
first element attaining the minimum. -/
def get_closest_food (c : Creature) (foods : List Food) : Option Food :=
  match foods with
  | [] => none
  | f :: fs =>
    some (fs.foldl
      (fun best g =>
        if manhattan_distance c.x c.y g.x g.y
            < manhattan_distance c.x c.y best.x best.y then g else best) f)

/-- Whether the cell one step from the creature in the given direction is
inside the world and free of creatures: the guard used by move_towards
and random_move against the pre-tick world. -/
def step_target_free (w : EvolutionWorld) (c : Creature) (m : ℤ × ℤ) : Bool :=
  w.is_valid_position (c.x + m.1) (c.y + m.2) &&
    (w.get_creature_at (c.x + m.1) (c.y + m.2)).isNone

/-- move_towards from behaviors.py: one step towards the target,
preferring the axis of larger absolute distance, falling back to the
other axis, else staying. -/
def move_towards (c : Creature) (target_x target_y : ℤ)
    (w : EvolutionWorld) : ℤ × ℤ :=
  let dx := target_x - c.x
  let dy := target_y - c.y
  let move_x : ℤ := if dx = 0 then 0 else if 0 < dx then 1 else -1
  let move_y : ℤ := if dy = 0 then 0 else if 0 < dy then 1 else -1
  if |dy| ≤ |dx| then
    if step_target_free w c (move_x, 0) then (move_x, 0)
    else if step_target_free w c (0, move_y) then (0, move_y)
    else (0, 0)
  else
    if step_target_free w c (0, move_y) then (0, move_y)
    else if step_target_free w c (move_x, 0) then (move_x, 0)
    else (0, 0)

/-- The five candidate moves of random_move, in source order. -/
def possible_moves : List (ℤ × ℤ) := [(-1, 0), (1, 0), (0, -1), (0, 1), (0, 0)]

/-- random_move from behaviors.py: shuffle the candidates, return the
first whose target cell is valid and creature-free, else stay. -/
def random_move (c : Creature) (w : EvolutionWorld) (seed : List ℕ) :
    ℤ × ℤ :=
  match (shuffleWith seed possible_moves).find? (step_target_free w c) with
  | some m => m
  | none => (0, 0)

/-- can_reproduce from behaviors.py: energy at least 60 percent of
max_energy and age at least MIN_REPRODUCTION_AGE. -/
def can_reproduce (c : Creature) : Bool :=
  decide (c.genes.max_energy * mkRat 3 5 ≤ c.energy ∧
    MIN_REPRODUCTION_AGE ≤ c.age)

/-- find_empty_neighbor from behaviors.py: the four orthogonal
neighbours, shuffled, first valid and creature-free one, else none. -/
def find_empty_neighbor (x y : ℤ) (w : EvolutionWorld) (seed : List ℕ) :
    Option (ℤ × ℤ) :=
  (shuffleWith seed [(x - 1, y), (x + 1, y), (x, y - 1), (x, y + 1)]).find?
    (fun p => w.is_valid_position p.1 p.2 && (w.get_creature_at p.1 p.2).isNone)

/-- decide_action from behaviors.py: reproduce when possible (signalled
by (-1, -1)), else move towards the closest visible food, else move
randomly. -/
def decide_action (c : Creature) (w : EvolutionWorld) (seed : List ℕ) :
    ℤ × ℤ :=
  if can_reproduce c then (-1, -1)
  else
    match get_closest_food c (find_visible_foods c w) with
    | some f => move_towards c f.x f.y w
    | none => random_move c w seed

/-! ## Claim C9 -/

/-- The shape required of a non-reproduction action: at most one nonzero
component, each component in the interval from -1 to 1. -/
def axis_action (a : ℤ × ℤ) : Prop :=
  (a.1 = 0 ∨ a.2 = 0) ∧ -1 ≤ a.1 ∧ a.1 ≤ 1 ∧ -1 ≤ a.2 ∧ a.2 ≤ 1

theorem sgn_if_bound (d : ℤ) :
    -1 ≤ (if d = 0 then (0:ℤ) else if 0 < d then 1 else -1) ∧
      (if d = 0 then (0:ℤ) else if 0 < d then 1 else -1) ≤ 1 := by
  split
  · omega
  · split <;> omega

theorem axis_action_h (mx : ℤ) (h1 : -1 ≤ mx) (h2 : mx ≤ 1) :
    axis_action (mx, 0) :=
  ⟨Or.inr rfl, h1, h2, by omega, by omega⟩

theorem axis_action_v (my : ℤ) (h1 : -1 ≤ my) (h2 : my ≤ 1) :
    axis_action (0, my) :=
  ⟨Or.inl rfl, by omega, by omega, h1, h2⟩

theorem axis_action_zero : axis_action (0, 0) :=
  ⟨Or.inl rfl, by omega, by omega, by omega, by omega⟩

theorem move_towards_axis (c : Creature) (tx ty : ℤ) (w : EvolutionWorld) :
    axis_action (move_towards c tx ty w) := by
  simp only [move_towards]
  repeat' split
  all_goals first
    | exact axis_action_zero
    | exact axis_action_h _ (by omega) (by omega)
    | exact axis_action_v _ (by omega) (by omega)

theorem random_move_axis (c : Creature) (w : EvolutionWorld)
    (seed : List ℕ) : axis_action (random_move c w seed) := by
  unfold random_move
  rcases hfind : (shuffleWith seed possible_moves).find? (step_target_free w c)
    with _ | m
  · exact axis_action_zero
  · show axis_action m
    have hm : m ∈ possible_moves :=
      shuffleWith_mem m (List.mem_of_find?_eq_some hfind)
    have hcases :
        m = (-1, 0) ∨ m = (1, 0) ∨ m = (0, -1) ∨ m = (0, 1) ∨ m = (0, 0) := by
      simpa [possible_moves] using hm
    rcases hcases with rfl | rfl | rfl | rfl | rfl
    · exact axis_action_h _ (by omega) (by omega)
    · exact axis_action_h _ (by omega) (by omega)
    · exact axis_action_v _ (by omega) (by omega)
    · exact axis_action_v _ (by omega) (by omega)
    · exact axis_action_zero

/-- C9: decide_action returns either the reproduction sentinel (-1, -1)
or a movement pair with at most one nonzero component, each component in
the set of values -1, 0, 1; in particular it never returns a diagonal
movement, so the sentinel encoding of Reproduce is unambiguous. -/
theorem claim_C9_action_shape (c : Creature) (w : EvolutionWorld)
    (seed : List ℕ) :
    decide_action c w seed = (-1, -1) ∨
      axis_action (decide_action c w seed) := by
  unfold decide_action
  split
  · exact Or.inl rfl
  · rcases get_closest_food c (find_visible_foods c w) with _ | f
    · exact Or.inr (random_move_axis c w seed)
    · exact Or.inr (move_towards_axis c f.x f.y w)

/-! ## Random draws consumed by one tick of the engine -/

/-- Draws consumed for one creature: a shuffle seed for random_move, a
shuffle seed for find_empty_neighbor, and mutation draws for a possible
reproduction. -/
structure CreatureDraws where
  rm : List ℕ
  fen : List ℕ
  mutd : GenesDraws

/-- Draws consumed by one call of next_step.  perCreature is indexed by
the position of the creature in the creature list.  clusterPick and
spawnOffset are indexed by the spawn-loop iteration; spawnOffset
additionally by the attempt number, and supplies the integer offset of
the pre-clamp candidate cell from the chosen cluster centre.  movePick,
movePos and initCluster model the randint draws of maybe_move_clusters
and initialize_food_clusters. -/
structure TickDraws where
  perCreature : ℕ → CreatureDraws
  clusterPick : ℕ → ℕ
  spawnOffset : ℕ → ℕ → ℤ × ℤ
  movePick : ℕ
  movePos : ℕ × ℕ
  initCluster : ℕ → ℕ × ℕ

/-- random.randint(0, bound - 1) modelled as an arbitrary oracle value
reduced modulo the bound. -/
def randint_upto (n : ℕ) (bound : ℤ) : ℤ :=
  ((n % bound.toNat : ℕ) : ℤ)

/-! ## next_step, steps 1 to 3: decisions, reproduction and movement -/

/-- Accumulator of the action-processing loop of next_step:
new_creatures, the per-tick occupancy set (modelled as a list) and the
running id counter. -/
structure StepState where
  new_creatures : List Creature
  occupied : List (ℤ × ℤ)
  next_id : ℤ

/-- The inner movement loop of next_step: up to fuel unit steps in
direction (dx, dy) from (x, y), stopping at the first cell that is
already claimed this tick or outside the world; returns the final cell
and the number of completed steps. -/
def move_steps (w : EvolutionWorld) (occupied : List (ℤ × ℤ))
    (x y dx dy : ℤ) : ℕ → (ℤ × ℤ) × ℕ
  | 0 => ((x, y), 0)
  | fuel + 1 =>
    let nx := x + dx
    let ny := y + dy
    if (nx, ny) ∈ occupied ∨ w.is_valid_position nx ny = false then
      ((x, y), 0)
    else
      let r := move_steps w occupied nx ny dx dy fuel
      (r.1, r.2 + 1)

/-- The movement branch of the action loop: try speed steps; on at least
one completed step relocate to the final cell, mark it occupied and
charge move_cost * speed floored at zero energy; otherwise stay in place
at no cost, marking the current cell occupied.  A (0, 0) action skips
the loop and stays. -/
def process_movement (w : EvolutionWorld) (st : StepState) (c : Creature)
    (a : ℤ × ℤ) : StepState :=
  if a.1 = 0 ∧ a.2 = 0 then
    { st with
        new_creatures := st.new_creatures ++ [c]
        occupied := (c.x, c.y) :: st.occupied }
  else
    let r := move_steps w st.occupied c.x c.y a.1 a.2 c.genes.speed.toNat
    if 0 < r.2 then
      let moved := c.move_to r.1.1 r.1.2
      let cost := moved.genes.move_cost * (moved.genes.speed : ℚ)
      let charged := { moved with energy := max 0 (moved.energy - cost) }
      { st with
          new_creatures := st.new_creatures ++ [charged]
          occupied := (r.1.1, r.1.2) :: st.occupied }
    else
      { st with
          new_creatures := st.new_creatures ++ [c]
          occupied := (c.x, c.y) :: st.occupied }

/-- Processing of one (creature, action) pair of next_step: on the
reproduction sentinel, reproduce into a free unclaimed neighbour cell if
one exists, else stay; otherwise run the movement branch. -/
def process_action (w : EvolutionWorld) (cd : CreatureDraws)
    (st : StepState) (c : Creature) (a : ℤ × ℤ) : StepState :=
  if a = (-1, -1) then
    match find_empty_neighbor c.x c.y w cd.fen with
    | some nb =>
      if nb ∈ st.occupied then
        { st with
            new_creatures := st.new_creatures ++ [c]
            occupied := (c.x, c.y) :: st.occupied }
      else
        let pc := c.reproduce st.next_id cd.mutd
        let child := pc.2.move_to nb.1 nb.2
        { new_creatures := st.new_creatures ++ [pc.1, child]
          occupied := nb :: (c.x, c.y) :: st.occupied
          next_id := st.next_id + 1 }
    | none =>
      { st with
          new_creatures := st.new_creatures ++ [c]
          occupied := (c.x, c.y) :: st.occupied }
  else process_movement w st c a

/-- Step 1 of next_step: all actions are decided against the pre-tick
world, indexed by list position. -/
def creature_actions (w : EvolutionWorld) (o : TickDraws) :
    List (ℕ × Creature × (ℤ × ℤ)) :=
  w.creatures.enum.map
    (fun ic => (ic.1, ic.2, decide_action ic.2 w (o.perCreature ic.1).rm))

/-- Steps 2 and 3 of next_step: process every (creature, action) pair in
list order against a shared occupancy set seeded empty; returns the new
creature list and the advanced id counter. -/
def step_actions (w : EvolutionWorld) (o : TickDraws) : List Creature × ℤ :=
  let final := (creature_actions w o).foldl
    (fun st ica => process_action w (o.perCreature ica.1) st ica.2.1 ica.2.2)
    ⟨[], [], w.next_creature_id⟩
  (final.new_creatures, final.next_id)

/-! ## next_step, step 4: feeding -/

/-- The linear search of the feeding loop: the first food of the list at
the given cell.  The source searches the full pre-tick food list and
does not exclude already-eaten positions. -/
def food_at (foods : List Food) (x y : ℤ) : Option Food :=
  foods.find? (fun f => decide (f.x = x ∧ f.y = y))

/-- The effect of the feeding loop on one creature. -/
def feed_one (foods : List Food) (c : Creature) : Creature :=
  match food_at foods c.x c.y with
  | some f => c.eat f.energy
  | none => c

/-- Step 4 of next_step: every creature at a food cell absorbs the food
energy; the food position is recorded as eaten. -/
def step_feeding (foods : List Food) (cs : List Creature) :
    List Creature × List (ℤ × ℤ) :=
  cs.foldl
    (fun acc c =>
      match food_at foods c.x c.y with
      | some f => (acc.1 ++ [c.eat f.energy], (f.x, f.y) :: acc.2)
      | none => (acc.1 ++ [c], acc.2))
    ([], [])

/-! ## next_step, steps 5 to 7: metabolism, aging, death -/

/-- Steps 5 and 6 of next_step. -/
def step_metab_age (cs : List Creature) : List Creature :=
  cs.map (fun c => c.consume_metabolism.age_one_turn)

/-- The full creature pipeline of next_step: actions, feeding,
metabolism, aging and the death filter. -/
def next_step_creatures (w : EvolutionWorld) (o : TickDraws) :
    List Creature :=
  (step_metab_age (step_feeding w.foods (step_actions w o).1).1).filter
    Creature.is_alive

/-! ## next_step, steps 8 to 10: clusters and food spawning -/

/-- initialize_food_clusters from world.py. -/
def initialize_food_clusters (w : EvolutionWorld) (o : TickDraws) :
    List (ℤ × ℤ) :=
  (List.range NUM_FOOD_CLUSTERS).map
    (fun i => (randint_upto (o.initCluster i).1 w.width,
      randint_upto (o.initCluster i).2 w.height))

/-- maybe_move_clusters from world.py: every CLUSTER_MOVE_INTERVAL
generations (and only past generation 0) one cluster centre is moved to
a fresh random cell. -/
def maybe_move_clusters (w : EvolutionWorld) (o : TickDraws) :
    List (ℤ × ℤ) :=
  if 0 < w.generation ∧ w.generation % CLUSTER_MOVE_INTERVAL = 0 then
    if w.food_clusters.isEmpty then w.food_clusters
    else
      w.food_clusters.set (o.movePick % w.food_clusters.length)
        (randint_upto o.movePos.1 w.width, randint_upto o.movePos.2 w.height)
  else w.food_clusters

/-- The clamp of a spawned food coordinate to world bounds:
max(0, min(bound - 1, v)). -/
def clamp_coord (bound v : ℤ) : ℤ :=
  max 0 (min (bound - 1) v)

/-- The attempt loop of spawn_food_near_cluster: up to n candidate cells
around the cluster centre (cx, cy), each clamped to world bounds and
rejected when occupied by a creature or an existing food. -/
def spawn_try (w : EvolutionWorld) (occ fps : List (ℤ × ℤ)) (cx cy : ℤ)
    (cand : ℕ → ℤ × ℤ) : ℕ → ℕ → Option Food
  | 0, _ => none
  | n + 1, j =>
    let off := cand j
    let fx := clamp_coord w.width (cx + off.1)
    let fy := clamp_coord w.height (cy + off.2)
    if (fx, fy) ∈ occ ∨ (fx, fy) ∈ fps then
      spawn_try w occ fps cx cy cand n (j + 1)
    else some ⟨fx, fy, FOOD_ENERGY⟩

/-- spawn_food_near_cluster from world.py, for an already initialized
cluster list: pick a cluster, then run 20 placement attempts. -/
def spawn_food_near_cluster (w : EvolutionWorld)
    (clusters occ fps : List (ℤ × ℤ)) (pick : ℕ) (cand : ℕ → ℤ × ℤ) :
    Option Food :=
  match clusters.get? (pick % clusters.length) with
  | none => none
  | some cc => spawn_try w occ fps cc.1 cc.2 cand 20 0

/-- State of the spawn loop: accumulated foods, their positions, and the
cluster list (initialized lazily on the first spawn call). -/
structure SpawnState where
  foods : List Food
  fps : List (ℤ × ℤ)
  clusters : List (ℤ × ℤ)

/-- One iteration of the spawn loop of next_step. -/
def spawn_step (w : EvolutionWorld) (o : TickDraws)
    (occ : List (ℤ × ℤ)) (st : SpawnState) (i : ℕ) : SpawnState :=
  let clusters :=
    if st.clusters.isEmpty then initialize_food_clusters w o else st.clusters
  match spawn_food_near_cluster w clusters occ st.fps (o.clusterPick i)
      (o.spawnOffset i) with
  | some f =>
    { foods := st.foods ++ [f]
      fps := (f.x, f.y) :: st.fps
      clusters := clusters }
  | none => { st with clusters := clusters }

/-- get_food_spawn_rate from world.py: a sinusoid over the season cycle
between the configured minimum and maximum spawn rates. -/
noncomputable def get_food_spawn_rate (generation : ℕ) : ℝ :=
  if ENABLE_TEMPORAL_VARIATION = false then ((FOOD_SPAWN_PER_TURN : ℚ) : ℝ)
  else
    let phase : ℝ :=
      ((generation % SEASON_CYCLE_LENGTH : ℕ) : ℝ) / (SEASON_CYCLE_LENGTH : ℝ)
    let base_rate : ℝ :=
      (((SEASON_MIN_SPAWN_RATE + SEASON_MAX_SPAWN_RATE : ℚ)) : ℝ) / 2
    let amplitude : ℝ :=
      (((SEASON_MAX_SPAWN_RATE - SEASON_MIN_SPAWN_RATE : ℚ)) : ℝ) / 2
    base_rate + amplitude * Real.sin (2 * Real.pi * phase)

/-- Steps 8 to 10 of next_step: drop eaten foods, maybe move a cluster,
then spawn int(get_food_spawn_rate()) foods capped at MAX_FOOD.  The
python int() truncation coincides with the floor because the spawn rate
is positive for this configuration. -/
noncomputable def next_step_foods_and_clusters (w : EvolutionWorld)
    (o : TickDraws) (alive : List Creature) (eaten : List (ℤ × ℤ)) :
    List Food × List (ℤ × ℤ) :=
  let remaining := w.foods.filter (fun f => decide ((f.x, f.y) ∉ eaten))
  let clusters1 := maybe_move_clusters w o
  let toSpawn : ℤ := ⌊get_food_spawn_rate w.generation⌋
  if remaining.length < MAX_FOOD then
    let n : ℕ := (min toSpawn ((MAX_FOOD : ℤ) - remaining.length)).toNat
    let occ := alive.map (fun c => (c.x, c.y))
    let st := (List.range n).foldl (spawn_step w o occ)
      ⟨remaining, remaining.map (fun f => (f.x, f.y)), clusters1⟩
    (st.foods, st.clusters)
  else (remaining, clusters1)

/-- next_step from world.py: the complete tick transition. -/
noncomputable def next_step (w : EvolutionWorld) (o : TickDraws) :
    EvolutionWorld :=
  let acts := step_actions w o
  let fed := step_feeding w.foods acts.1
  let alive := (step_metab_age fed.1).filter Creature.is_alive
  let fc := next_step_foods_and_clusters w o alive fed.2
  { width := w.width
    height := w.height
    creatures := alive
    foods := fc.1
    generation := w.generation + 1
    next_creature_id := acts.2
    food_clusters := fc.2 }

theorem next_step_creatures_eq (w : EvolutionWorld) (o : TickDraws) :
    (next_step w o).creatures = next_step_creatures w o := rfl

/-! ## Claim C3 -/

/-- C3: in the movement branch of next_step, a moving agent that
completes at least one unit step is relocated to the final reached cell
and charged move_cost * speed at the declared speed regardless of the
number of completed steps, floored at zero energy; an agent that
completes zero steps is appended unchanged, at its original cell with
its original energy. -/
theorem claim_C3_movement_semantics (w : EvolutionWorld) (st : StepState)
    (c : Creature) (a : ℤ × ℤ) (hmove : ¬(a.1 = 0 ∧ a.2 = 0)) :
    (0 < (move_steps w st.occupied c.x c.y a.1 a.2 c.genes.speed.toNat).2 →
      (process_movement w st c a).new_creatures = st.new_creatures ++
        [{ c with
            x := (move_steps w st.occupied c.x c.y a.1 a.2
              c.genes.speed.toNat).1.1
            y := (move_steps w st.occupied c.x c.y a.1 a.2
              c.genes.speed.toNat).1.2
            energy := max 0 (c.energy -
              c.genes.move_cost * (c.genes.speed : ℚ)) }]) ∧
    ((move_steps w st.occupied c.x c.y a.1 a.2 c.genes.speed.toNat).2 = 0 →
      (process_movement w st c a).new_creatures = st.new_creatures ++ [c]) := by
  simp only [process_movement]
  rw [if_neg hmove]
  constructor
  · intro h
    rw [if_pos h]
    rfl
  · intro h
    rw [if_neg (by omega :
      ¬ 0 < (move_steps w st.occupied c.x c.y a.1 a.2 c.genes.speed.toNat).2)]

/-- An empty world used by witnesses that only need the grid. -/
def open_world : EvolutionWorld where
  width := 10
  height := 10
  creatures := []
  foods := []
  generation := 0
  next_creature_id := 0
  food_clusters := []

/-- Witness for C3: in the empty 10 by 10 world, the witness creature at
(2, 3) moving right completes its single step and is charged its move
cost. -/
theorem claim_C3_witness :
    (¬(((1:ℤ), (0:ℤ)).1 = 0 ∧ ((1:ℤ), (0:ℤ)).2 = 0)) ∧
      ((0 < (move_steps open_world (StepState.mk [] [] 0).occupied
          witness_creature.x witness_creature.y 1 0
          witness_creature.genes.speed.toNat).2 →
        (process_movement open_world (StepState.mk [] [] 0)
            witness_creature (1, 0)).new_creatures =
          (StepState.mk [] [] 0).new_creatures ++
          [{ witness_creature with
              x := (move_steps open_world (StepState.mk [] [] 0).occupied
                witness_creature.x witness_creature.y 1 0
                witness_creature.genes.speed.toNat).1.1
              y := (move_steps open_world (StepState.mk [] [] 0).occupied
                witness_creature.x witness_creature.y 1 0
                witness_creature.genes.speed.toNat).1.2
              energy := max 0 (witness_creature.energy -
                witness_creature.genes.move_cost *
                  (witness_creature.genes.speed : ℚ)) }]) ∧
      ((move_steps open_world (StepState.mk [] [] 0).occupied
          witness_creature.x witness_creature.y 1 0
          witness_creature.genes.speed.toNat).2 = 0 →
        (process_movement open_world (StepState.mk [] [] 0)
            witness_creature (1, 0)).new_creatures =
          (StepState.mk [] [] 0).new_creatures ++ [witness_creature])) :=
  ⟨by decide,
    claim_C3_movement_semantics open_world (StepState.mk [] [] 0)
      witness_creature (1, 0) (by decide)⟩

/-! ## Claim C6 -/

/-- C6: a creature of the post-feeding list survives into the world
emitted by next_step exactly when its post-feeding energy exceeds its
metabolism; every survivor is the metabolised version of its
post-feeding self with age incremented by exactly one, and a creature
whose post-feeding energy minus metabolism is nonpositive is floored to
zero energy and removed. -/
theorem claim_C6_death_and_aging (w : EvolutionWorld) (o : TickDraws)
    (d : Creature) :
    d ∈ (next_step w o).creatures ↔
      ∃ c ∈ (step_feeding w.foods (step_actions w o).1).1,
        c.genes.metabolism < c.energy ∧
        d = c.consume_metabolism.age_one_turn ∧
        d.age = c.age + 1 ∧ d.energy = c.energy - c.genes.metabolism := by
  rw [next_step_creatures_eq]
  unfold next_step_creatures step_metab_age
  rw [List.mem_filter, List.mem_map]
  constructor
  · rintro ⟨⟨c, hc, rfl⟩, halive⟩
    have hpos : (0:ℚ) < max 0 (c.energy - c.genes.metabolism) := by
      simpa [Creature.is_alive, Creature.consume_metabolism,
        Creature.age_one_turn] using halive
    have hlt : (0:ℚ) < c.energy - c.genes.metabolism := by
      rcases lt_max_iff.mp hpos with h | h
      · exact absurd h (lt_irrefl 0)
      · exact h
    refine ⟨c, hc, by linarith, rfl, rfl, ?_⟩
    show max 0 (c.energy - c.genes.metabolism) = c.energy - c.genes.metabolism
    exact max_eq_right (by linarith)
  · rintro ⟨c, hc, hlt, rfl, -, -⟩
    refine ⟨⟨c, hc, rfl⟩, ?_⟩
    simp only [Creature.is_alive, Creature.consume_metabolism,
      Creature.age_one_turn, decide_eq_true_eq]
    exact lt_max_iff.mpr (Or.inr (by linarith))

/-! ## Claim C1 -/

/-- Pairwise distinctness of creature cells: the no-collision property
claimed for the world emitted by next_step. -/
def no_collision (cs : List Creature) : Prop :=
  cs.Pairwise (fun a b => (a.x, a.y) ≠ (b.x, b.y))

instance : DecidablePred no_collision := by
  unfold no_collision
  infer_instance

def c1_genes_s1 : Genes where
  move_cost := 1
  vision_range := 3
  reproduction_threshold := 100
  metabolism := 1
  speed := 1
  max_energy := 100
  food_efficiency := 1

def c1_genes_s2 : Genes := { c1_genes_s1 with speed := 2 }

/-- A collision-free 3 by 2 world: one speed-1 creature at (1, 1), one
speed-2 creature at (0, 0), one speed-1 creature at (2, 0), no food. -/
def c1_world : EvolutionWorld where
  width := 3
  height := 2
  creatures :=
    [{ x := 1, y := 1, energy := 50, genes := c1_genes_s1, age := 0,
       generation := 0, id := 0 },
     { x := 0, y := 0, energy := 50, genes := c1_genes_s2, age := 0,
       generation := 0, id := 1 },
     { x := 2, y := 0, energy := 50, genes := c1_genes_s1, age := 0,
       generation := 0, id := 2 }]
  foods := []
  generation := 0
  next_creature_id := 3
  food_clusters := []

def c1_draw (rmSeed : List ℕ) : CreatureDraws where
  rm := rmSeed
  fen := []
  mutd := large_draws

/-- Draws under which creature 0 moves right to (2, 1), creature 1 moves
right twice, passing through (1, 0) onto the pre-tick cell (2, 0) of
creature 2, and creature 2 tries to move up to (2, 1), which is already
claimed, so it stays at (2, 0). -/
def c1_ticks : TickDraws where
  perCreature := fun i =>
    if i = 0 then c1_draw [1] else if i = 1 then c1_draw [1] else c1_draw [3]
  clusterPick := fun _ => 0
  spawnOffset := fun _ _ => (0, 0)
  movePick := 0
  movePos := (0, 0)
  initCluster := fun _ => (0, 0)

/-- C1 fails on the code: from a collision-free world, under reachable
random draws, next_step emits a world in which the creatures with ids 1
and 2 both occupy the cell (2, 0).  A speed-2 agent may step onto the
pre-tick cell of a later-processed agent whose own move is then blocked,
because the movement loop checks only the per-tick occupancy set and the
world bounds, never the pre-tick positions of agents that have not acted
yet. -/
theorem claim_C1_collision_eval :
    no_collision c1_world.creatures ∧
      ¬ no_collision (next_step c1_world c1_ticks).creatures := by
  rw [next_step_creatures_eq]
  constructor
  · with_unfolding_all decide
  · with_unfolding_all decide

/-! ## Claim C10 -/

theorem feed_one_age (foods : List Food) (c : Creature) :
    (feed_one foods c).age = c.age := by
  unfold feed_one
  rcases food_at foods c.x c.y with _ | f <;> rfl

theorem feed_one_genes (foods : List Food) (c : Creature) :
    (feed_one foods c).genes = c.genes := by
  unfold feed_one
  rcases food_at foods c.x c.y with _ | f <;> rfl

theorem feed_one_energy_le (foods : List Food) (c : Creature) :
    (feed_one foods c).energy ≤ c.energy +
      (match food_at foods c.x c.y with
       | some f => f.energy * c.genes.food_efficiency
       | none => 0) := by
  unfold feed_one
  rcases h : food_at foods c.x c.y with _ | f
  · simp
  · exact le_trans (min_le_left _ _) (le_refl _)

/-- Every creature entering the feeding stage, after feeding, metabolism
and aging, if alive, carries age plus one and at most its entering
energy plus the absorbed food energy minus its metabolism. -/
theorem pipeline_age_energy (foods : List Food) (ch : Creature)
    (halive : ((feed_one foods ch).consume_metabolism.age_one_turn).is_alive
      = true) :
    ((feed_one foods ch).consume_metabolism.age_one_turn).age = ch.age + 1 ∧
    ((feed_one foods ch).consume_metabolism.age_one_turn).energy ≤
      ch.energy +
        (match food_at foods ch.x ch.y with
         | some f => f.energy * ch.genes.food_efficiency
         | none => 0) - ch.genes.metabolism := by
  have hE : ((feed_one foods ch).consume_metabolism.age_one_turn).energy
      = max 0 ((feed_one foods ch).energy -
        (feed_one foods ch).genes.metabolism) := rfl
  have hpos : (0:ℚ) < max 0 ((feed_one foods ch).energy -
      (feed_one foods ch).genes.metabolism) := by
    simpa [Creature.is_alive, Creature.consume_metabolism,
      Creature.age_one_turn] using halive
  have hlt : (0:ℚ) < (feed_one foods ch).energy -
      (feed_one foods ch).genes.metabolism := by
    rcases lt_max_iff.mp hpos with h | h
    · exact absurd h (lt_irrefl 0)
    · exact h
  have hle := feed_one_energy_le foods ch
  constructor
  · show (feed_one foods ch).age + 1 = ch.age + 1
    rw [feed_one_age]
  · rw [hE, max_eq_right (le_of_lt hlt), feed_one_genes]
    linarith [hle]

/-- C10: a child created by reproduce during a tick, placed at its
neighbour cell, is subjected to feeding, metabolism and aging within the
same tick: if it then passes the death filter it carries age exactly 1
(not 0) and energy at most half the parent pre-reproduction energy plus
the absorbed food energy, reduced by its own (mutated) metabolism. -/
theorem claim_C10_child_same_tick (parent : Creature) (d : GenesDraws)
    (child_id nx ny : ℤ) (foods : List Food)
    (halive : ((feed_one foods
        (((parent.reproduce child_id d).2).move_to nx ny)).consume_metabolism.age_one_turn).is_alive
      = true) :
    ((feed_one foods
        (((parent.reproduce child_id d).2).move_to nx ny)).consume_metabolism.age_one_turn).age
      = 1 ∧
    ((feed_one foods
        (((parent.reproduce child_id d).2).move_to nx ny)).consume_metabolism.age_one_turn).energy ≤
      parent.energy * mkRat 1 2 +
        (match food_at foods nx ny with
         | some f => f.energy * (parent.genes.mutate d).food_efficiency
         | none => 0) -
        (parent.genes.mutate d).metabolism := by
  have h := pipeline_age_energy foods
    (((parent.reproduce child_id d).2).move_to nx ny) halive
  exact ⟨h.1, h.2⟩

/-- Witness for C10: the witness creature reproduces; its child, placed
at (2, 4) with no food present, survives metabolism and emerges with age
1 and the claimed energy bound. -/
theorem claim_C10_witness :
    (((feed_one []
        (((witness_creature.reproduce 12 large_draws).2).move_to 2 4)).consume_metabolism.age_one_turn).is_alive
      = true) ∧
    (((feed_one []
        (((witness_creature.reproduce 12 large_draws).2).move_to 2 4)).consume_metabolism.age_one_turn).age
      = 1 ∧
    ((feed_one []
        (((witness_creature.reproduce 12 large_draws).2).move_to 2 4)).consume_metabolism.age_one_turn).energy ≤
      witness_creature.energy * mkRat 1 2 +
        (match food_at [] 2 4 with
         | some f => f.energy *
            (witness_creature.genes.mutate large_draws).food_efficiency
         | none => 0) -
        (witness_creature.genes.mutate large_draws).metabolism) :=
  ⟨by with_unfolding_all decide,
    claim_C10_child_same_tick witness_creature large_draws 12 2 4 []
      (by with_unfolding_all decide)⟩

/-! ## Claim C7 -/

/-- C7: with temporal variation enabled, the spawn rate stays within the
configured seasonal bounds for every generation, and it is not constant
across one full season: generations 0 and 25, both inside the 100-long
season, produce different rates. -/
theorem claim_C7_spawn_rate_bounds :
    (∀ g : ℕ, ((SEASON_MIN_SPAWN_RATE : ℚ) : ℝ) ≤ get_food_spawn_rate g ∧
      get_food_spawn_rate g ≤ ((SEASON_MAX_SPAWN_RATE : ℚ) : ℝ)) ∧
    get_food_spawn_rate 0 ≠ get_food_spawn_rate 25 ∧
    0 < SEASON_CYCLE_LENGTH ∧ 25 < SEASON_CYCLE_LENGTH := by
  have hmin : (SEASON_MIN_SPAWN_RATE : ℚ) = 3/2 := by
    with_unfolding_all decide
  have hmax : (SEASON_MAX_SPAWN_RATE : ℚ) = 7/2 := by
    with_unfolding_all decide
  have hsum : ((SEASON_MIN_SPAWN_RATE + SEASON_MAX_SPAWN_RATE : ℚ) : ℝ) = 5 := by
    rw [hmin, hmax]; norm_num
  have hdiff : ((SEASON_MAX_SPAWN_RATE - SEASON_MIN_SPAWN_RATE : ℚ) : ℝ) = 2 := by
    rw [hmin, hmax]; norm_num
  have hrate : ∀ g : ℕ, get_food_spawn_rate g =
      5/2 + Real.sin (2 * Real.pi *
        (((g % SEASON_CYCLE_LENGTH : ℕ) : ℝ) / (SEASON_CYCLE_LENGTH : ℝ))) := by
    intro g
    simp only [get_food_spawn_rate, ENABLE_TEMPORAL_VARIATION,
      Bool.true_eq_false, if_false, hsum, hdiff]
    ring
  refine ⟨?_, ?_, by norm_num [SEASON_CYCLE_LENGTH],
    by norm_num [SEASON_CYCLE_LENGTH]⟩
  · intro g
    rw [hrate g, hmin, hmax]
    constructor
    · have := Real.neg_one_le_sin (2 * Real.pi *
        (((g % SEASON_CYCLE_LENGTH : ℕ) : ℝ) / (SEASON_CYCLE_LENGTH : ℝ)))
      push_cast
      linarith
    · have := Real.sin_le_one (2 * Real.pi *
        (((g % SEASON_CYCLE_LENGTH : ℕ) : ℝ) / (SEASON_CYCLE_LENGTH : ℝ)))
      push_cast
      linarith
  · have h0 : get_food_spawn_rate 0 = 5/2 := by
      rw [hrate 0]
      norm_num [SEASON_CYCLE_LENGTH]
    have h25 : get_food_spawn_rate 25 = 7/2 := by
      rw [hrate 25]
      have hmod : ((25 % SEASON_CYCLE_LENGTH : ℕ) : ℝ) = 25 := by
        norm_num [SEASON_CYCLE_LENGTH]
      rw [hmod]
      have harg : 2 * Real.pi * ((25:ℝ) / (SEASON_CYCLE_LENGTH : ℝ))
          = Real.pi / 2 := by
        norm_num [SEASON_CYCLE_LENGTH]
        ring
      rw [harg, Real.sin_pi_div_two]
      norm_num
    rw [h0, h25]
    norm_num

/-! ## Claim C8 -/

/-- A cell inside the grid of the world. -/
def in_bounds (w : EvolutionWorld) (x y : ℤ) : Prop :=
  0 ≤ x ∧ x < w.width ∧ 0 ≤ y ∧ y < w.height

instance (w : EvolutionWorld) (x y : ℤ) : Decidable (in_bounds w x y) := by
  unfold in_bounds
  infer_instance

theorem is_valid_position_iff (w : EvolutionWorld) (x y : ℤ) :
    w.is_valid_position x y = true ↔ in_bounds w x y := by
  simp [EvolutionWorld.is_valid_position, in_bounds]

theorem move_steps_bounds (w : EvolutionWorld) (occ : List (ℤ × ℤ))
    (dx dy : ℤ) :
    ∀ (fuel : ℕ) (x y : ℤ),
      (move_steps w occ x y dx dy fuel).1 = (x, y) ∨
        w.is_valid_position (move_steps w occ x y dx dy fuel).1.1
          (move_steps w occ x y dx dy fuel).1.2 = true := by
  intro fuel
  induction fuel with
  | zero => intro x y; exact Or.inl rfl
  | succ n ih =>
    intro x y
    simp only [move_steps]
    split
    · exact Or.inl rfl
    · rename_i hcond
      have hvalid : w.is_valid_position (x + dx) (y + dy) = true := by
        cases hb : w.is_valid_position (x + dx) (y + dy)
        · exact absurd (Or.inr hb) hcond
        · rfl
      rcases ih (x + dx) (y + dy) with h | h
      · rw [h]
        exact Or.inr hvalid
      · exact Or.inr h

theorem find_empty_neighbor_valid {x y : ℤ} {w : EvolutionWorld}
    {seed : List ℕ} {nb : ℤ × ℤ}
    (h : find_empty_neighbor x y w seed = some nb) :
    w.is_valid_position nb.1 nb.2 = true := by
  have hp := List.find?_some h
  exact (Bool.and_eq_true _ _ |>.mp hp).1

/-- Fold invariant: a property preserved by every step of a left fold,
with the step element known to come from the folded list. -/
theorem foldl_inv {α : Type u_1} {β : Type u_2} (f : β → α → β)
    (P : β → Prop) (l : List α) (b : β) (hb : P b)
    (hstep : ∀ st a, a ∈ l → P st → P (f st a)) : P (l.foldl f b) := by
  induction l generalizing b with
  | nil => exact hb
  | cons x xs ih =>
    exact ih (f b x) (hstep b x (List.mem_cons_self _ _) hb)
      (fun st a ha hst => hstep st a (List.mem_cons_of_mem _ ha) hst)

/-! Equation lemmas for the branches of process_action, used by the
invariant proofs. -/

theorem pa_none_creatures (w : EvolutionWorld) (cd : CreatureDraws)
    (st : StepState) (c : Creature) (a : ℤ × ℤ) (ha : a = (-1, -1))
    (h : find_empty_neighbor c.x c.y w cd.fen = none) :
    (process_action w cd st c a).new_creatures = st.new_creatures ++ [c] := by
  unfold process_action
  rw [if_pos ha, h]

theorem pa_none_occupied (w : EvolutionWorld) (cd : CreatureDraws)
    (st : StepState) (c : Creature) (a : ℤ × ℤ) (ha : a = (-1, -1))
    (h : find_empty_neighbor c.x c.y w cd.fen = none) :
    (process_action w cd st c a).occupied = (c.x, c.y) :: st.occupied := by
  unfold process_action
  rw [if_pos ha, h]

theorem pa_occ_creatures (w : EvolutionWorld) (cd : CreatureDraws)
    (st : StepState) (c : Creature) (a : ℤ × ℤ) (nb : ℤ × ℤ)
    (ha : a = (-1, -1))
    (h : find_empty_neighbor c.x c.y w cd.fen = some nb)
    (hocc : nb ∈ st.occupied) :
    (process_action w cd st c a).new_creatures = st.new_creatures ++ [c] := by
  unfold process_action
  rw [if_pos ha, h]
  simp [hocc]

theorem pa_occ_occupied (w : EvolutionWorld) (cd : CreatureDraws)
    (st : StepState) (c : Creature) (a : ℤ × ℤ) (nb : ℤ × ℤ)
    (ha : a = (-1, -1))
    (h : find_empty_neighbor c.x c.y w cd.fen = some nb)
    (hocc : nb ∈ st.occupied) :
    (process_action w cd st c a).occupied = (c.x, c.y) :: st.occupied := by
  unfold process_action
  rw [if_pos ha, h]
  simp [hocc]

theorem pa_repro_creatures (w : EvolutionWorld) (cd : CreatureDraws)
    (st : StepState) (c : Creature) (a : ℤ × ℤ) (nb : ℤ × ℤ)
    (ha : a = (-1, -1))
    (h : find_empty_neighbor c.x c.y w cd.fen = some nb)
    (hocc : nb ∉ st.occupied) :
    (process_action w cd st c a).new_creatures = st.new_creatures ++
      [(c.reproduce st.next_id cd.mutd).1,
        ((c.reproduce st.next_id cd.mutd).2).move_to nb.1 nb.2] := by
  unfold process_action
  rw [if_pos ha, h]
  simp [hocc]

theorem pa_repro_occupied (w : EvolutionWorld) (cd : CreatureDraws)
    (st : StepState) (c : Creature) (a : ℤ × ℤ) (nb : ℤ × ℤ)
    (ha : a = (-1, -1))
    (h : find_empty_neighbor c.x c.y w cd.fen = some nb)
    (hocc : nb ∉ st.occupied) :
    (process_action w cd st c a).occupied = nb :: (c.x, c.y) :: st.occupied := by
  unfold process_action
  rw [if_pos ha, h]
  simp [hocc]

theorem pa_move (w : EvolutionWorld) (cd : CreatureDraws) (st : StepState)
    (c : Creature) (a : ℤ × ℤ) (ha : ¬ a = (-1, -1)) :
    process_action w cd st c a = process_movement w st c a := by
  unfold process_action
  rw [if_neg ha]

theorem pm_stay_creatures (w : EvolutionWorld) (st : StepState)
    (c : Creature) (a : ℤ × ℤ) (h : a.1 = 0 ∧ a.2 = 0) :
    (process_movement w st c a).new_creatures = st.new_creatures ++ [c] := by
  simp only [process_movement]
  rw [if_pos h]

theorem pm_stay_occupied (w : EvolutionWorld) (st : StepState)
    (c : Creature) (a : ℤ × ℤ) (h : a.1 = 0 ∧ a.2 = 0) :
    (process_movement w st c a).occupied = (c.x, c.y) :: st.occupied := by
  simp only [process_movement]
  rw [if_pos h]

theorem pm_moved_creatures (w : EvolutionWorld) (st : StepState)
    (c : Creature) (a : ℤ × ℤ) (h1 : ¬(a.1 = 0 ∧ a.2 = 0))
    (h2 : 0 < (move_steps w st.occupied c.x c.y a.1 a.2
      c.genes.speed.toNat).2) :
    (process_movement w st c a).new_creatures = st.new_creatures ++
      [{ c with
          x := (move_steps w st.occupied c.x c.y a.1 a.2
            c.genes.speed.toNat).1.1
          y := (move_steps w st.occupied c.x c.y a.1 a.2
            c.genes.speed.toNat).1.2
          energy := max 0 (c.energy -
            c.genes.move_cost * (c.genes.speed : ℚ)) }] := by
  simp only [process_movement]
  rw [if_neg h1, if_pos h2]
  rfl

theorem pm_moved_occupied (w : EvolutionWorld) (st : StepState)
    (c : Creature) (a : ℤ × ℤ) (h1 : ¬(a.1 = 0 ∧ a.2 = 0))
    (h2 : 0 < (move_steps w st.occupied c.x c.y a.1 a.2
      c.genes.speed.toNat).2) :
    (process_movement w st c a).occupied =
      ((move_steps w st.occupied c.x c.y a.1 a.2 c.genes.speed.toNat).1.1,
        (move_steps w st.occupied c.x c.y a.1 a.2 c.genes.speed.toNat).1.2)
        :: st.occupied := by
  simp only [process_movement]
  rw [if_neg h1, if_pos h2]

theorem pm_blocked_creatures (w : EvolutionWorld) (st : StepState)
    (c : Creature) (a : ℤ × ℤ) (h1 : ¬(a.1 = 0 ∧ a.2 = 0))
    (h2 : (move_steps w st.occupied c.x c.y a.1 a.2
      c.genes.speed.toNat).2 = 0) :
    (process_movement w st c a).new_creatures = st.new_creatures ++ [c] := by
  simp only [process_movement]
  rw [if_neg h1, if_neg (by omega :
    ¬ 0 < (move_steps w st.occupied c.x c.y a.1 a.2 c.genes.speed.toNat).2)]

theorem pm_blocked_occupied (w : EvolutionWorld) (st : StepState)
    (c : Creature) (a : ℤ × ℤ) (h1 : ¬(a.1 = 0 ∧ a.2 = 0))
    (h2 : (move_steps w st.occupied c.x c.y a.1 a.2
      c.genes.speed.toNat).2 = 0) :
    (process_movement w st c a).occupied = (c.x, c.y) :: st.occupied := by
  simp only [process_movement]
  rw [if_neg h1, if_neg (by omega :
    ¬ 0 < (move_steps w st.occupied c.x c.y a.1 a.2 c.genes.speed.toNat).2)]

/-- Invariant of the action loop: every accumulated creature sits inside
the grid. -/
theorem process_action_bounds (w : EvolutionWorld) (cd : CreatureDraws)
    (st : StepState) (c : Creature) (a : ℤ × ℤ)
    (hst : ∀ d ∈ st.new_creatures, in_bounds w d.x d.y)
    (hc : in_bounds w c.x c.y) :
    ∀ d ∈ (process_action w cd st c a).new_creatures, in_bounds w d.x d.y := by
  by_cases ha : a = (-1, -1)
  · cases hnb : find_empty_neighbor c.x c.y w cd.fen with
    | none =>
      intro d hd
      rw [pa_none_creatures w cd st c a ha hnb] at hd
      rcases List.mem_append.mp hd with h | h
      · exact hst d h
      · rcases List.mem_singleton.mp h with rfl
        exact hc
    | some nb =>
      by_cases hocc : nb ∈ st.occupied
      · intro d hd
        rw [pa_occ_creatures w cd st c a nb ha hnb hocc] at hd
        rcases List.mem_append.mp hd with h | h
        · exact hst d h
        · rcases List.mem_singleton.mp h with rfl
          exact hc
      · intro d hd
        rw [pa_repro_creatures w cd st c a nb ha hnb hocc] at hd
        rcases List.mem_append.mp hd with h | h
        · exact hst d h
        · rcases List.mem_cons.mp h with rfl | h
          · exact hc
          · rcases List.mem_singleton.mp h with rfl
            exact (is_valid_position_iff w nb.1 nb.2).mp
              (find_empty_neighbor_valid hnb)
  · intro d hd
    rw [pa_move w cd st c a ha] at hd
    by_cases hstay : a.1 = 0 ∧ a.2 = 0
    · rw [pm_stay_creatures w st c a hstay] at hd
      rcases List.mem_append.mp hd with h | h
      · exact hst d h
      · rcases List.mem_singleton.mp h with rfl
        exact hc
    · by_cases hmoved : 0 < (move_steps w st.occupied c.x c.y a.1 a.2
        c.genes.speed.toNat).2
      · rw [pm_moved_creatures w st c a hstay hmoved] at hd
        rcases List.mem_append.mp hd with h | h
        · exact hst d h
        · rcases List.mem_singleton.mp h with rfl
          show in_bounds w
            (move_steps w st.occupied c.x c.y a.1 a.2 c.genes.speed.toNat).1.1
            (move_steps w st.occupied c.x c.y a.1 a.2 c.genes.speed.toNat).1.2
          rcases move_steps_bounds w st.occupied a.1 a.2 c.genes.speed.toNat
            c.x c.y with h | h
          · rw [h]
            exact hc
          · exact (is_valid_position_iff w _ _).mp h
      · rw [pm_blocked_creatures w st c a hstay (by omega)] at hd
        rcases List.mem_append.mp hd with h | h
        · exact hst d h
        · rcases List.mem_singleton.mp h with rfl
          exact hc

theorem mem_enumFrom_snd {l : List α} :
    ∀ {n : ℕ} {p : ℕ × α}, p ∈ l.enumFrom n → p.2 ∈ l := by
  induction l with
  | nil => intro n p h; simp [List.enumFrom] at h
  | cons a as ih =>
    intro n p h
    rcases List.mem_cons.mp h with rfl | h
    · exact List.mem_cons_self _ _
    · exact List.mem_cons_of_mem _ (ih h)

theorem mem_enum_snd {l : List α} {p : ℕ × α} (h : p ∈ l.enum) : p.2 ∈ l :=
  mem_enumFrom_snd h

theorem step_actions_bounds (w : EvolutionWorld) (o : TickDraws)
    (hc : ∀ c ∈ w.creatures, in_bounds w c.x c.y) :
    ∀ d ∈ (step_actions w o).1, in_bounds w d.x d.y := by
  unfold step_actions
  show ∀ d ∈ ((creature_actions w o).foldl
      (fun st ica => process_action w (o.perCreature ica.1) st ica.2.1 ica.2.2)
      ⟨[], [], w.next_creature_id⟩).new_creatures, in_bounds w d.x d.y
  refine foldl_inv _
    (fun st : StepState => ∀ d ∈ st.new_creatures, in_bounds w d.x d.y)
    _ _ ?_ ?_
  · intro d hd
    simp at hd
  · intro st ica hica hst
    have hmem : ica.2.1 ∈ w.creatures := by
      unfold creature_actions at hica
      rcases List.mem_map.mp hica with ⟨ic, hic, rfl⟩
      exact mem_enum_snd hic
    exact process_action_bounds w _ st ica.2.1 ica.2.2 hst (hc _ hmem)

theorem feed_one_x (foods : List Food) (c : Creature) :
    (feed_one foods c).x = c.x := by
  unfold feed_one
  rcases food_at foods c.x c.y with _ | f <;> rfl

theorem feed_one_y (foods : List Food) (c : Creature) :
    (feed_one foods c).y = c.y := by
  unfold feed_one
  rcases food_at foods c.x c.y with _ | f <;> rfl

theorem step_feeding_fst (foods : List Food) (cs : List Creature) :
    (step_feeding foods cs).1 = cs.map (feed_one foods) := by
  unfold step_feeding
  suffices h : ∀ acc : List Creature × List (ℤ × ℤ),
      (cs.foldl (fun acc c =>
        match food_at foods c.x c.y with
        | some f => (acc.1 ++ [c.eat f.energy], (f.x, f.y) :: acc.2)
        | none => (acc.1 ++ [c], acc.2)) acc).1
        = acc.1 ++ cs.map (feed_one foods) by
    simpa using h ([], [])
  induction cs with
  | nil => intro acc; simp
  | cons c cs ih =>
    intro acc
    simp only [List.foldl_cons, List.map_cons]
    rcases hfa : food_at foods c.x c.y with _ | f
    · rw [ih]
      simp [feed_one, hfa]
    · rw [ih]
      simp [feed_one, hfa]

theorem clamp_coord_bounds (bound v : ℤ) (hb : 1 ≤ bound) :
    0 ≤ clamp_coord bound v ∧ clamp_coord bound v < bound := by
  unfold clamp_coord
  constructor
  · exact le_max_left _ _
  · have h1 : min (bound - 1) v ≤ bound - 1 := min_le_left _ _
    have h2 : max 0 (min (bound - 1) v) ≤ bound - 1 :=
      max_le (by omega) h1
    omega

theorem spawn_try_bounds (w : EvolutionWorld) (occ fps : List (ℤ × ℤ))
    (cx cy : ℤ) (cand : ℕ → ℤ × ℤ) (hw : 1 ≤ w.width) (hh : 1 ≤ w.height) :
    ∀ (n j : ℕ) (f : Food), spawn_try w occ fps cx cy cand n j = some f →
      in_bounds w f.x f.y := by
  intro n
  induction n with
  | zero =>
    intro j f h
    simp [spawn_try] at h
  | succ m ih =>
    intro j f h
    simp only [spawn_try] at h
    split at h
    · exact ih _ f h
    · obtain rfl := Option.some.inj h
      exact ⟨(clamp_coord_bounds w.width _ hw).1,
        (clamp_coord_bounds w.width _ hw).2,
        (clamp_coord_bounds w.height _ hh).1,
        (clamp_coord_bounds w.height _ hh).2⟩

theorem spawn_food_near_cluster_bounds (w : EvolutionWorld)
    (clusters occ fps : List (ℤ × ℤ)) (pick : ℕ) (cand : ℕ → ℤ × ℤ)
    (hw : 1 ≤ w.width) (hh : 1 ≤ w.height) (f : Food)
    (h : spawn_food_near_cluster w clusters occ fps pick cand = some f) :
    in_bounds w f.x f.y := by
  unfold spawn_food_near_cluster at h
  rcases hget : clusters.get? (pick % clusters.length) with _ | cc
  · rw [hget] at h
    exact absurd h (by simp)
  · rw [hget] at h
    exact spawn_try_bounds w occ fps cc.1 cc.2 cand hw hh 20 0 f h

theorem spawn_fold_bounds (w : EvolutionWorld) (o : TickDraws)
    (occ : List (ℤ × ℤ)) (hw : 1 ≤ w.width) (hh : 1 ≤ w.height)
    (idxs : List ℕ) (st : SpawnState)
    (hst : ∀ f ∈ st.foods, in_bounds w f.x f.y) :
    ∀ f ∈ (idxs.foldl (spawn_step w o occ) st).foods, in_bounds w f.x f.y := by
  refine foldl_inv _
    (fun st2 : SpawnState => ∀ f ∈ st2.foods, in_bounds w f.x f.y)
    _ _ hst ?_
  intro st2 i hi hst2
  simp only [spawn_step]
  cases hsp : spawn_food_near_cluster w
      (if st2.clusters.isEmpty then initialize_food_clusters w o
        else st2.clusters) occ st2.fps (o.clusterPick i) (o.spawnOffset i) with
  | none =>
    intro f hfmem
    exact hst2 f hfmem
  | some f2 =>
    intro f hfmem
    rcases List.mem_append.mp hfmem with h | h
    · exact hst2 f h
    · rcases List.mem_singleton.mp h with rfl
      exact spawn_food_near_cluster_bounds w _ occ st2.fps _ _ hw hh f hsp

theorem next_step_foods_and_clusters_bounds (w : EvolutionWorld)
    (o : TickDraws) (alive : List Creature) (eaten : List (ℤ × ℤ))
    (hw : 1 ≤ w.width) (hh : 1 ≤ w.height)
    (hf : ∀ f ∈ w.foods, in_bounds w f.x f.y) :
    ∀ f ∈ (next_step_foods_and_clusters w o alive eaten).1,
      in_bounds w f.x f.y := by
  have hrem : ∀ f ∈ w.foods.filter (fun f => decide ((f.x, f.y) ∉ eaten)),
      in_bounds w f.x f.y :=
    fun f hfm => hf f (List.mem_of_mem_filter hfm)
  simp only [next_step_foods_and_clusters]
  split
  · exact spawn_fold_bounds w o _ hw hh _ _ hrem
  · exact hrem

theorem next_step_foods_bounds (w : EvolutionWorld) (o : TickDraws)
    (hw : 1 ≤ w.width) (hh : 1 ≤ w.height)
    (_hc : ∀ c ∈ w.creatures, in_bounds w c.x c.y)
    (hf : ∀ f ∈ w.foods, in_bounds w f.x f.y) :
    ∀ f ∈ (next_step w o).foods, in_bounds (next_step w o) f.x f.y := by
  intro f hfmem
  exact next_step_foods_and_clusters_bounds w o _ _ hw hh hf f hfmem

/-- C8: from a world with positive dimensions whose creature and food
coordinates all lie inside the grid, next_step emits a world (of the
same dimensions) whose creature and food coordinates again all lie
inside the grid: movement steps and child cells are bounds-checked, and
spawned food is clamped to the grid. -/
theorem claim_C8_bounds_containment (w : EvolutionWorld) (o : TickDraws)
    (hw : 1 ≤ w.width) (hh : 1 ≤ w.height)
    (hc : ∀ c ∈ w.creatures, in_bounds w c.x c.y)
    (hf : ∀ f ∈ w.foods, in_bounds w f.x f.y) :
    (∀ c ∈ (next_step w o).creatures, in_bounds (next_step w o) c.x c.y) ∧
    ∀ f ∈ (next_step w o).foods, in_bounds (next_step w o) f.x f.y := by
  constructor
  · intro d hd
    rw [next_step_creatures_eq] at hd
    unfold next_step_creatures step_metab_age at hd
    obtain ⟨hd2, -⟩ := List.mem_filter.mp hd
    obtain ⟨e, he, rfl⟩ := List.mem_map.mp hd2
    rw [step_feeding_fst] at he
    obtain ⟨c, hcmem, rfl⟩ := List.mem_map.mp he
    show in_bounds (next_step w o) (feed_one w.foods c).x (feed_one w.foods c).y
    rw [feed_one_x, feed_one_y]
    exact step_actions_bounds w o hc c hcmem
  · intro f hfmem
    exact next_step_foods_bounds w o hw hh hc hf f hfmem

/-- A neutral tick oracle used by concrete witnesses. -/
def quiet_ticks : TickDraws where
  perCreature := fun _ => c1_draw []
  clusterPick := fun _ => 0
  spawnOffset := fun _ _ => (0, 0)
  movePick := 0
  movePos := (0, 0)
  initCluster := fun _ => (0, 0)

def c8_creature : Creature where
  x := 1
  y := 1
  energy := 50
  genes := c1_genes_s1
  age := 0
  generation := 0
  id := 0

/-- A small in-bounds world with one creature and one food. -/
def c8_world : EvolutionWorld where
  width := 4
  height := 4
  creatures := [c8_creature]
  foods := [{ x := 2, y := 2, energy := 60 }]
  generation := 0
  next_creature_id := 1
  food_clusters := []

/-- Witness for C8 at a concrete 4 by 4 world. -/
theorem claim_C8_witness :
    ((1:ℤ) ≤ c8_world.width ∧ (1:ℤ) ≤ c8_world.height ∧
      (∀ c ∈ c8_world.creatures, in_bounds c8_world c.x c.y) ∧
      (∀ f ∈ c8_world.foods, in_bounds c8_world f.x f.y)) ∧
    ((∀ c ∈ (next_step c8_world quiet_ticks).creatures,
        in_bounds (next_step c8_world quiet_ticks) c.x c.y) ∧
      ∀ f ∈ (next_step c8_world quiet_ticks).foods,
        in_bounds (next_step c8_world quiet_ticks) f.x f.y) :=
  ⟨⟨by with_unfolding_all decide, by with_unfolding_all decide,
      by with_unfolding_all decide, by with_unfolding_all decide⟩,
    claim_C8_bounds_containment c8_world quiet_ticks
      (by with_unfolding_all decide) (by with_unfolding_all decide)
      (by with_unfolding_all decide) (by with_unfolding_all decide)⟩

/-! ## Claim C4 -/

/-- Whether a creature stands at the cell p. -/
def at_cell (p : ℤ × ℤ) (c : Creature) : Bool :=
  decide (c.x = p.1 ∧ c.y = p.2)

theorem move_steps_zero_pos (w : EvolutionWorld) (occ : List (ℤ × ℤ))
    (dx dy : ℤ) :
    ∀ (fuel : ℕ) (x y : ℤ), (move_steps w occ x y dx dy fuel).2 = 0 →
      (move_steps w occ x y dx dy fuel).1 = (x, y) := by
  intro fuel
  induction fuel with
  | zero => intro x y _; rfl
  | succ n ih =>
    intro x y
    simp only [move_steps]
    split
    · intro _; rfl
    · intro h
      exact absurd h (Nat.succ_ne_zero _)

theorem move_steps_pos_unoccupied (w : EvolutionWorld)
    (occ : List (ℤ × ℤ)) (dx dy : ℤ) :
    ∀ (fuel : ℕ) (x y : ℤ), 0 < (move_steps w occ x y dx dy fuel).2 →
      (move_steps w occ x y dx dy fuel).1 ∉ occ := by
  intro fuel
  induction fuel with
  | zero =>
    intro x y h
    exact absurd h (by simp [move_steps])
  | succ n ih =>
    intro x y
    simp only [move_steps]
    split
    · intro h
      exact absurd h (by simp)
    · rename_i hcond
      intro _
      by_cases hz : (move_steps w occ (x + dx) (y + dy) dx dy n).2 = 0
      · rw [move_steps_zero_pos w occ dx dy n (x + dx) (y + dy) hz]
        intro hmem
        exact hcond (Or.inl hmem)
      · exact ih (x + dx) (y + dy) (by omega)

theorem countP_append_singleton (l : List α) (x : α) (q : α → Bool) :
    (l ++ [x]).countP q = l.countP q + (if q x then 1 else 0) := by
  simp [List.countP_append, List.countP_cons]

theorem countP_append_pair (l : List α) (x y : α) (q : α → Bool) :
    (l ++ [x, y]).countP q = l.countP q +
      (if q x then 1 else 0) + (if q y then 1 else 0) := by
  simp [List.countP_append, List.countP_cons]
  omega

theorem countP_append_one_false (l : List α) (x : α) (q : α → Bool)
    (h : q x = false) : (l ++ [x]).countP q = l.countP q := by
  rw [countP_append_singleton, h]
  simp

theorem countP_append_two_false (l : List α) (x y : α) (q : α → Bool)
    (hx : q x = false) (hy : q y = false) :
    (l ++ [x, y]).countP q = l.countP q := by
  rw [countP_append_pair, hx, hy]
  simp

theorem countP_append_two_snd_true (l : List α) (x y : α) (q : α → Bool)
    (hx : q x = false) (hy : q y = true) :
    (l ++ [x, y]).countP q = l.countP q + 1 := by
  rw [countP_append_pair, hx, hy]
  simp

theorem countP_append_one_true (l : List α) (x : α) (q : α → Bool)
    (h : q x = true) : (l ++ [x]).countP q = l.countP q + 1 := by
  rw [countP_append_singleton, h]
  simp

theorem at_cell_false_of_ne {p : ℤ × ℤ} {c : Creature}
    (h : (c.x, c.y) ≠ p) : at_cell p c = false := by
  apply decide_eq_false
  rintro ⟨h1, h2⟩
  exact h (Prod.ext_iff.mpr ⟨h1, h2⟩)

/-- Invariant of the action loop at a cell p that no pre-tick creature
occupies: at most one accumulated creature stands at p, and as soon as
one does, p is claimed in the occupancy set. -/
theorem process_action_count (w : EvolutionWorld) (cd : CreatureDraws)
    (st : StepState) (c : Creature) (a : ℤ × ℤ) (p : ℤ × ℤ)
    (hcp : (c.x, c.y) ≠ p)
    (hinv : st.new_creatures.countP (at_cell p) ≤ 1 ∧
      (1 ≤ st.new_creatures.countP (at_cell p) → p ∈ st.occupied)) :
    (process_action w cd st c a).new_creatures.countP (at_cell p) ≤ 1 ∧
      (1 ≤ (process_action w cd st c a).new_creatures.countP (at_cell p) →
        p ∈ (process_action w cd st c a).occupied) := by
  have hqc : at_cell p c = false := at_cell_false_of_ne hcp
  by_cases ha : a = (-1, -1)
  · cases hnb : find_empty_neighbor c.x c.y w cd.fen with
    | none =>
      rw [pa_none_creatures w cd st c a ha hnb,
        pa_none_occupied w cd st c a ha hnb,
        countP_append_one_false _ _ _ hqc]
      exact ⟨hinv.1, fun h => List.mem_cons_of_mem _ (hinv.2 h)⟩
    | some nb =>
      by_cases hocc : nb ∈ st.occupied
      · rw [pa_occ_creatures w cd st c a nb ha hnb hocc,
          pa_occ_occupied w cd st c a nb ha hnb hocc,
          countP_append_one_false _ _ _ hqc]
        exact ⟨hinv.1, fun h => List.mem_cons_of_mem _ (hinv.2 h)⟩
      · rw [pa_repro_creatures w cd st c a nb ha hnb hocc,
          pa_repro_occupied w cd st c a nb ha hnb hocc]
        have hqpa : at_cell p ((c.reproduce st.next_id cd.mutd).1) = false :=
          at_cell_false_of_ne hcp
        by_cases hnbp : nb = p
        · have hcount0 : st.new_creatures.countP (at_cell p) = 0 := by
            by_contra hne
            exact hocc (hnbp ▸ hinv.2 (by omega))
          have hqch : at_cell p
              (((c.reproduce st.next_id cd.mutd).2).move_to nb.1 nb.2)
                = true := by
            subst hnbp
            simp [at_cell, Creature.move_to]
          rw [countP_append_two_snd_true _ _ _ _ hqpa hqch, hcount0]
          exact ⟨by omega, fun _ => hnbp ▸ List.mem_cons_self _ _⟩
        · have hqch : at_cell p
              (((c.reproduce st.next_id cd.mutd).2).move_to nb.1 nb.2)
                = false := by
            apply at_cell_false_of_ne
            show (nb.1, nb.2) ≠ p
            intro he
            exact hnbp (by rw [← he])
          rw [countP_append_two_false _ _ _ _ hqpa hqch]
          exact ⟨hinv.1, fun h => List.mem_cons_of_mem _
            (List.mem_cons_of_mem _ (hinv.2 h))⟩
  · rw [pa_move w cd st c a ha]
    by_cases hstay : a.1 = 0 ∧ a.2 = 0
    · rw [pm_stay_creatures w st c a hstay, pm_stay_occupied w st c a hstay,
        countP_append_one_false _ _ _ hqc]
      exact ⟨hinv.1, fun h => List.mem_cons_of_mem _ (hinv.2 h)⟩
    · by_cases hmoved : 0 < (move_steps w st.occupied c.x c.y a.1 a.2
        c.genes.speed.toNat).2
      · rw [pm_moved_creatures w st c a hstay hmoved,
          pm_moved_occupied w st c a hstay hmoved]
        have hnotocc := move_steps_pos_unoccupied w st.occupied a.1 a.2
          c.genes.speed.toNat c.x c.y hmoved
        by_cases hrp :
            (move_steps w st.occupied c.x c.y a.1 a.2 c.genes.speed.toNat).1
              = p
        · have hcount0 : st.new_creatures.countP (at_cell p) = 0 := by
            by_contra hne
            exact hnotocc (hrp ▸ hinv.2 (by omega))
          have hqm : at_cell p { c with
              x := (move_steps w st.occupied c.x c.y a.1 a.2
                c.genes.speed.toNat).1.1
              y := (move_steps w st.occupied c.x c.y a.1 a.2
                c.genes.speed.toNat).1.2
              energy := max 0 (c.energy -
                c.genes.move_cost * (c.genes.speed : ℚ)) } = true := by
            simp [at_cell, ← hrp]
          have hpair : ((move_steps w st.occupied c.x c.y a.1 a.2
              c.genes.speed.toNat).1.1,
            (move_steps w st.occupied c.x c.y a.1 a.2
              c.genes.speed.toNat).1.2) = p := by
            rw [← hrp]
          rw [countP_append_one_true _ _ _ hqm, hcount0]
          refine ⟨by omega, fun _ => ?_⟩
          rw [← hpair]
          exact List.mem_cons_self _ _
        · have hqm : at_cell p { c with
              x := (move_steps w st.occupied c.x c.y a.1 a.2
                c.genes.speed.toNat).1.1
              y := (move_steps w st.occupied c.x c.y a.1 a.2
                c.genes.speed.toNat).1.2
              energy := max 0 (c.energy -
                c.genes.move_cost * (c.genes.speed : ℚ)) } = false := by
            apply at_cell_false_of_ne
            show ((move_steps w st.occupied c.x c.y a.1 a.2
              c.genes.speed.toNat).1.1,
              (move_steps w st.occupied c.x c.y a.1 a.2
                c.genes.speed.toNat).1.2) ≠ p
            intro he
            exact hrp (by rw [← he])
          rw [countP_append_one_false _ _ _ hqm]
          exact ⟨hinv.1, fun h => List.mem_cons_of_mem _ (hinv.2 h)⟩
      · rw [pm_blocked_creatures w st c a hstay (by omega),
          pm_blocked_occupied w st c a hstay (by omega),
          countP_append_one_false _ _ _ hqc]
        exact ⟨hinv.1, fun h => List.mem_cons_of_mem _ (hinv.2 h)⟩

theorem step_actions_count (w : EvolutionWorld) (o : TickDraws)
    (p : ℤ × ℤ) (hp : ∀ c ∈ w.creatures, (c.x, c.y) ≠ p) :
    (step_actions w o).1.countP (at_cell p) ≤ 1 := by
  unfold step_actions
  show ((creature_actions w o).foldl
      (fun st ica => process_action w (o.perCreature ica.1) st ica.2.1 ica.2.2)
      ⟨[], [], w.next_creature_id⟩).new_creatures.countP (at_cell p) ≤ 1
  refine (foldl_inv
    (fun st ica => process_action w (o.perCreature ica.1) st ica.2.1 ica.2.2)
    (fun st : StepState => st.new_creatures.countP (at_cell p) ≤ 1 ∧
      (1 ≤ st.new_creatures.countP (at_cell p) → p ∈ st.occupied))
    (creature_actions w o) ⟨[], [], w.next_creature_id⟩
    ⟨by simp, by simp⟩ ?_).1
  intro st ica hica hst
  have hmem : ica.2.1 ∈ w.creatures := by
    unfold creature_actions at hica
    rcases List.mem_map.mp hica with ⟨ic, hic, rfl⟩
    exact mem_enum_snd hic
  exact process_action_count w _ st ica.2.1 ica.2.2 p (hp _ hmem) hst

theorem countP_filter_le (l : List α) (p q : α → Bool) :
    (l.filter q).countP p ≤ l.countP p := by
  induction l with
  | nil => simp
  | cons a l ih =>
    simp only [List.filter_cons]
    split
    · rw [List.countP_cons, List.countP_cons]
      split <;> omega
    · rw [List.countP_cons]
      split <;> omega

/-- C4: for a world in which no agent starts on a food cell (an
invariant of reachable worlds: feeding removes any food under an agent
and spawning avoids agent cells), at most one agent of the post-action
population stands at the cell of any given food of the tick, hence at
most one agent absorbs energy from it during the feeding pass; the
population emitted by next_step likewise holds at most one agent at that
cell. -/
theorem claim_C4_single_eater (w : EvolutionWorld) (o : TickDraws)
    (hsep : ∀ c ∈ w.creatures, ∀ f ∈ w.foods, (c.x, c.y) ≠ (f.x, f.y))
    (f : Food) (hf : f ∈ w.foods) :
    (step_actions w o).1.countP (at_cell (f.x, f.y)) ≤ 1 ∧
      (next_step w o).creatures.countP (at_cell (f.x, f.y)) ≤ 1 := by
  have hp : ∀ c ∈ w.creatures, (c.x, c.y) ≠ (f.x, f.y) :=
    fun c hc => hsep c hc f hf
  have h1 := step_actions_count w o (f.x, f.y) hp
  refine ⟨h1, ?_⟩
  rw [next_step_creatures_eq]
  unfold next_step_creatures step_metab_age
  refine le_trans (countP_filter_le _ _ _) ?_
  rw [List.countP_map, step_feeding_fst, List.countP_map]
  calc ((step_actions w o).1).countP
        ((at_cell (f.x, f.y) ∘ fun c => c.consume_metabolism.age_one_turn)
          ∘ feed_one w.foods)
      = ((step_actions w o).1).countP (at_cell (f.x, f.y)) := by
        apply List.countP_congr
        intro c _
        have heq : at_cell (f.x, f.y)
            ((feed_one w.foods c).consume_metabolism.age_one_turn)
              = at_cell (f.x, f.y) c := by
          unfold at_cell
          show decide ((feed_one w.foods c).x = f.x ∧
            (feed_one w.foods c).y = f.y) = _
          rw [feed_one_x, feed_one_y]
        show at_cell (f.x, f.y)
            ((feed_one w.foods c).consume_metabolism.age_one_turn) = true ↔
          at_cell (f.x, f.y) c = true
        rw [heq]
    _ ≤ 1 := h1

def c4_creature : Creature where
  x := 0
  y := 0
  energy := 50
  genes := c1_genes_s1
  age := 0
  generation := 0
  id := 0

def c4_food : Food where
  x := 2
  y := 2
  energy := 60

/-- A world with one creature at (0, 0) and one food at (2, 2). -/
def c4_world : EvolutionWorld where
  width := 5
  height := 5
  creatures := [c4_creature]
  foods := [c4_food]
  generation := 0
  next_creature_id := 1
  food_clusters := []

/-- Witness for C4 at a concrete world. -/
theorem claim_C4_witness :
    ((∀ c ∈ c4_world.creatures, ∀ f ∈ c4_world.foods,
        (c.x, c.y) ≠ (f.x, f.y)) ∧ c4_food ∈ c4_world.foods) ∧
    ((step_actions c4_world quiet_ticks).1.countP
        (at_cell (c4_food.x, c4_food.y)) ≤ 1 ∧
      (next_step c4_world quiet_ticks).creatures.countP
        (at_cell (c4_food.x, c4_food.y)) ≤ 1) :=
  ⟨⟨by with_unfolding_all decide, by with_unfolding_all decide⟩,
    claim_C4_single_eater c4_world quiet_ticks
      (by with_unfolding_all decide) c4_food
      (by with_unfolding_all decide)⟩
